import Mathlib

/-!
Shallow embedding of the HTTP/2 connection core from src/conn.rs
(stream state, flow-control windows, the egress scheduler pop_outg and
its drain loops, frame serialization write_part, and the ingress
dispatcher process_* functions), together with theorems settling the
frozen claims about that code.

Rust panics (.unwrap() / .expect(...)) are modelled as Except.error;
fuelled loops return ok none when the fuel runs out before the loop
condition became false.  Types that live outside src/ (the solicit
crate: WindowSize, StreamState::is_closed_local, DEFAULT_SETTINGS,
HttpConnection::decrease_in_window, HttpFrameStream::is_end_of_stream)
are modelled from the spec; each such definition says so in its doc
comment.
-/

namespace Http2

/-- Stream lifecycle states, as used by src/conn.rs (solicit::session::StreamState). -/
inductive StreamState
  | Idle
  | Open
  | HalfClosedLocal
  | HalfClosedRemote
  | Closed
deriving DecidableEq, Repr

/-- Modelled from the spec: StreamState::is_closed_local (solicit, not under src/).
Step 1 of pop_outgoing returns None if the state is already HalfClosedLocal or Closed. -/
def StreamState.is_closed_local : StreamState → Bool
  | StreamState.HalfClosedLocal => true
  | StreamState.Closed => true
  | _ => false

/-- END_STREAM marker carried by commands and frames. -/
inductive EndStream
  | Yes
  | No
deriving DecidableEq, Repr

/-- HTTP/2 error codes used by the connection core. -/
inductive ErrorCode
  | NoError
  | ProtocolError
  | InternalError
  | FlowControlError
  | StreamClosed
  | Cancel
  | CompressionError
  | RefusedStream
deriving DecidableEq, Repr

/-- Modelled from the spec: WindowSize (solicit, not under src/), a signed 32-bit
flow-control counter; src/conn.rs accesses its raw field as .0 and its value as .size(). -/
structure WindowSize where
  val : Int
deriving DecidableEq, Repr

def WindowSize.size (w : WindowSize) : Int := w.val

/-- Modelled from the spec: try_increase(delta) with delta in [0, 2^31 - 1] fails
with FlowControl if current + delta would exceed 2^31 - 1. -/
def WindowSize.try_increase (w : WindowSize) (delta : Nat) : Option WindowSize :=
  if (delta : Int) > 2 ^ 31 - 1 ∨ w.val + (delta : Int) > 2 ^ 31 - 1 then none
  else some ⟨w.val + (delta : Int)⟩

/-- Modelled from the spec: try_decrease(delta) reduces the value; it fails only if
the caller-supplied delta is itself invalid (negative or larger than i32::MAX) or the
result would underflow below INT32_MIN.  Negative resulting values are allowed. -/
def WindowSize.try_decrease (w : WindowSize) (delta : Int) : Option WindowSize :=
  if delta < 0 ∨ delta > 2 ^ 31 - 1 ∨ w.val - delta < -(2 ^ 31) then none
  else some ⟨w.val - delta⟩

/-- Modelled from the spec: DEFAULT_SETTINGS.initial_window_size, the protocol
default of 65535 bytes. -/
def DEFAULT_INITIAL_WINDOW_SIZE : Nat := 65535

/-- Rust cast `x as usize` of an i32 value: two's-complement reinterpretation
into a 64-bit unsigned integer (negative values become huge). -/
def usize_of_i32 (x : Int) : Nat := (x % (2 : Int) ^ 64).toNat

/-- Rust cast `n as i32` of a usize value: two's-complement truncation to 32 bits.
Also the cast `u32 as i32` when n holds a u32 value (then `n % 2^32 = n`). -/
def i32_of_usize (n : Nat) : Int :=
  if n % 2 ^ 32 < 2 ^ 31 then ((n % 2 ^ 32 : Nat) : Int)
  else ((n % 2 ^ 32 : Nat) : Int) - 2 ^ 32

/-- Wrapping i32 arithmetic (Rust release semantics): reduce an integer into
the two's-complement range [-2^31, 2^31). -/
def wrap_i32 (x : Int) : Int :=
  (x + 2 ^ 31) % 2 ^ 32 - 2 ^ 31

/-- Header blocks are ordered lists of (name, value) byte strings; the HPACK
codec is an external collaborator, so blocks are carried opaquely. -/
abbrev HeaderBlock := List (List Nat × List Nat)

/-- HttpStreamPartContent from stream_part: a queued Headers or Data part. -/
inductive HttpStreamPartContent
  | Data (data : List Nat)
  | Headers (headers : HeaderBlock)
deriving DecidableEq, Repr

/-- HttpStreamPart: a content part together with its end-of-stream marker. -/
structure HttpStreamPart where
  content : HttpStreamPartContent
  last : Bool
deriving DecidableEq, Repr

/-- HttpStreamCommand (src/conn.rs): what the egress scheduler hands to serialization. -/
inductive HttpStreamCommand
  | Headers (headers : HeaderBlock) (end_stream : EndStream)
  | Data (data : List Nat) (end_stream : EndStream)
  | Rst (error_code : ErrorCode)
deriving DecidableEq, Repr

/-- HttpStreamCommand::from (src/conn.rs lines 46-61). -/
def HttpStreamCommand.fromPart (part : HttpStreamPart) : HttpStreamCommand :=
  let end_stream := match part.last with
    | true => EndStream.Yes
    | false => EndStream.No
  match part.content with
  | HttpStreamPartContent.Data data => HttpStreamCommand.Data data end_stream
  | HttpStreamPartContent.Headers headers => HttpStreamCommand.Headers headers end_stream

/-- HttpStreamCommon (src/conn.rs lines 72-79): per-stream state.  The VecDeque
outgoing is a list whose head is the queue front. -/
structure HttpStreamCommon where
  state : StreamState
  out_window_size : WindowSize
  in_window_size : WindowSize
  outgoing : List HttpStreamPartContent
  outgoing_end : Option ErrorCode
deriving DecidableEq, Repr

/-- HttpStreamCommon::new (src/conn.rs lines 82-90). -/
def HttpStreamCommon.new (out_window_size : Nat) : HttpStreamCommon :=
  { state := StreamState.Open
    in_window_size := ⟨(DEFAULT_INITIAL_WINDOW_SIZE : Int)⟩
    out_window_size := ⟨(out_window_size : Int)⟩
    outgoing := []
    outgoing_end := none }

/-- HttpStreamCommon::close_local (src/conn.rs lines 92-98). -/
def HttpStreamCommon.close_local (s : HttpStreamCommon) : HttpStreamCommon :=
  { s with state := match s.state with
      | StreamState.Closed => StreamState.Closed
      | StreamState.HalfClosedRemote => StreamState.Closed
      | _ => StreamState.HalfClosedLocal }

/-- HttpStreamCommon::close_remote (src/conn.rs lines 100-105). -/
def HttpStreamCommon.close_remote (s : HttpStreamCommon) : HttpStreamCommon :=
  { s with state := match s.state with
      | StreamState.Closed => StreamState.Closed
      | StreamState.HalfClosedLocal => StreamState.Closed
      | _ => StreamState.HalfClosedRemote }

/-- HttpStreamCommon::pop_outg (src/conn.rs lines 107-176).  Returns the popped
command (if any), the updated stream, and the updated connection out-window;
the two .unwrap() calls on window decreases are modelled as Except.error. -/
def HttpStreamCommon.pop_outg (s : HttpStreamCommon) (conn_out_window_size : WindowSize) :
    Except String (Option HttpStreamCommand × HttpStreamCommon × WindowSize) :=
  match s.outgoing with
  | [] =>
    match s.outgoing_end with
    | some error_code =>
      if s.state.is_closed_local then Except.ok (none, s, conn_out_window_size)
      else
        Except.ok (some (match error_code with
          | ErrorCode.NoError => HttpStreamCommand.Data [] EndStream.Yes
          | ec => HttpStreamCommand.Rst ec), s.close_local, conn_out_window_size)
    | none => Except.ok (none, s, conn_out_window_size)
  | front :: rest =>
    match front with
    | HttpStreamPartContent.Headers h =>
      let s1 : HttpStreamCommon := { s with outgoing := rest }
      let last : Bool := decide (s1.outgoing_end = some ErrorCode.NoError ∧ s1.outgoing = [])
      let s2 := if last then s1.close_local else s1
      Except.ok (some (HttpStreamCommand.fromPart ⟨HttpStreamPartContent.Headers h, last⟩),
        s2, conn_out_window_size)
    | HttpStreamPartContent.Data data0 =>
      if s.out_window_size.size ≤ 0 then Except.ok (none, s, conn_out_window_size)
      else
        let max_window : Int := min s.out_window_size.size conn_out_window_size.size
        let (data, s1) :=
          if data0.length > usize_of_i32 max_window then
            (data0.take (usize_of_i32 max_window),
              { s with outgoing :=
                HttpStreamPartContent.Data (data0.drop (usize_of_i32 max_window)) :: rest })
          else (data0, { s with outgoing := rest })
        match s1.out_window_size.try_decrease (i32_of_usize data.length) with
        | none => Except.error "pop_outg failed to decrease stream window"
        | some w =>
          match conn_out_window_size.try_decrease (i32_of_usize data.length) with
          | none => Except.error "pop_outg failed to decrease conn window"
          | some cw =>
            let s2 := { s1 with out_window_size := w }
            let last : Bool := decide (s2.outgoing_end = some ErrorCode.NoError ∧ s2.outgoing = [])
            let s3 := if last then s2.close_local else s2
            Except.ok (some (HttpStreamCommand.fromPart ⟨HttpStreamPartContent.Data data, last⟩),
              s3, cw)

/-- Fuelled worker for HttpStreamCommon::pop_outg_all (src/conn.rs lines 178-184):
ok none means the fuel ran out with the while-let loop still running. -/
def HttpStreamCommon.pop_outg_all_go (s : HttpStreamCommon) (conn : WindowSize)
    (acc : List HttpStreamCommand) :
    Nat → Except String (Option (List HttpStreamCommand × HttpStreamCommon × WindowSize))
  | 0 => Except.ok none
  | Nat.succ fuel =>
    match s.pop_outg conn with
    | Except.error e => Except.error e
    | Except.ok (none, s1, conn1) => Except.ok (some (acc.reverse, s1, conn1))
    | Except.ok (some p, s1, conn1) => s1.pop_outg_all_go conn1 (p :: acc) fuel

/-- HttpStreamCommon::pop_outg_all (src/conn.rs lines 178-184), fuelled. -/
def HttpStreamCommon.pop_outg_all (fuel : Nat) (s : HttpStreamCommon) (conn : WindowSize) :
    Except String (Option (List HttpStreamCommand × HttpStreamCommon × WindowSize)) :=
  s.pop_outg_all_go conn [] fuel

/-- One HTTP/2 setting; only INITIAL_WINDOW_SIZE matters to src/conn.rs. -/
inductive HttpSetting
  | InitialWindowSize (size : Nat)
  | OtherSetting
deriving DecidableEq, Repr

/-- Wire frames produced by the egress side (write_part and send_frame). -/
inductive Frame
  | Data (stream_id : Nat) (data : List Nat) (end_stream : Bool)
  | HeadersF (stream_id : Nat) (headers : HeaderBlock) (end_headers : Bool) (end_stream : Bool)
  | RstStream (stream_id : Nat) (error_code : ErrorCode)
  | Settings (ack : Bool) (settings : List HttpSetting)
  | WindowUpdate (stream_id : Nat) (increment : Nat)
  | Ping (ack : Bool)
deriving DecidableEq, Repr

/-- Observable side effects of the ingress dispatcher: frames sent back to the
network (send_frame), flush requests (out_window_increased / send_common), and
the role-layer callbacks of the HttpStream trait. -/
inductive SideEffect
  | SendFrame (frame : Frame)
  | TryFlushStream (stream_id : Option Nat)
  | RstCallback (stream_id : Nat) (error_code : ErrorCode)
  | NewDataChunk (stream_id : Nat) (data : List Nat) (last : Bool)
  | ClosedRemote (stream_id : Nat)
  | ProcessHeaders (stream_id : Nat) (end_stream : EndStream) (headers : HeaderBlock)
deriving DecidableEq, Repr

/-- Connection-level state held by solicit::connection::HttpConnection as used by
src/conn.rs: the two connection windows and peer_settings.initial_window_size
(the HPACK codecs are external and carried opaquely). -/
structure HttpConnection where
  out_window_size : WindowSize
  in_window_size : WindowSize
  peer_initial_window_size : Nat
deriving DecidableEq, Repr

/-- Modelled from the spec: HttpConnection::decrease_in_window (solicit, not under
src/) decreases the connection in-window by the frame's payload length, refusing
invalid deltas. -/
def HttpConnection.decrease_in_window (c : HttpConnection) (size : Nat) : Option HttpConnection :=
  (c.in_window_size.try_decrease (i32_of_usize size)).map
    (fun w => { c with in_window_size := w })

/-- LoopInnerCommon (src/conn.rs lines 197-202): the connection plus the stream
table.  The HashMap is an association list with unique keys; its iteration order
is the list order. -/
structure LoopInnerCommon where
  conn : HttpConnection
  streams : List (Nat × HttpStreamCommon)
deriving DecidableEq, Repr

/-- HashMap::get_mut lookup on the stream table (get_stream_mut, lines 223-225). -/
def get_stream (streams : List (Nat × HttpStreamCommon)) (stream_id : Nat) :
    Option HttpStreamCommon :=
  match streams with
  | [] => none
  | (k, v) :: rest => if k = stream_id then some v else get_stream rest stream_id

/-- Writing back through a HashMap::get_mut reference: replace the entry. -/
def update_stream (streams : List (Nat × HttpStreamCommon)) (stream_id : Nat)
    (s : HttpStreamCommon) : List (Nat × HttpStreamCommon) :=
  match streams with
  | [] => []
  | (k, v) :: rest =>
    if k = stream_id then (k, s) :: rest else (k, v) :: update_stream rest stream_id s

/-- LoopInnerCommon::remove_stream (src/conn.rs lines 227-232). -/
def remove_stream (streams : List (Nat × HttpStreamCommon)) (stream_id : Nat) :
    List (Nat × HttpStreamCommon) :=
  match streams with
  | [] => []
  | (k, v) :: rest => if k = stream_id then rest else (k, v) :: remove_stream rest stream_id

/-- LoopInnerCommon::remove_stream_if_closed (src/conn.rs lines 234-238); the
.expect("unknown stream") panic is an Except.error. -/
def LoopInnerCommon.remove_stream_if_closed (st : LoopInnerCommon) (stream_id : Nat) :
    Except String LoopInnerCommon :=
  match get_stream st.streams stream_id with
  | none => Except.error "unknown stream"
  | some s =>
    if s.state = StreamState.Closed then
      Except.ok { st with streams := remove_stream st.streams stream_id }
    else Except.ok st

/-- LoopInnerCommon::pop_outg_for_stream (src/conn.rs lines 241-253). -/
def LoopInnerCommon.pop_outg_for_stream (st : LoopInnerCommon) (stream_id : Nat) :
    Except String (Option HttpStreamCommand × LoopInnerCommon) :=
  match get_stream st.streams stream_id with
  | none => Except.ok (none, st)
  | some stream =>
    match stream.pop_outg st.conn.out_window_size with
    | Except.error e => Except.error e
    | Except.ok (r, stream1, conn_w) =>
      let st1 : LoopInnerCommon :=
        { st with
          conn := { st.conn with out_window_size := conn_w }
          streams := update_stream st.streams stream_id stream1 }
      match r with
      | some cmd =>
        match st1.remove_stream_if_closed stream_id with
        | Except.error e => Except.error e
        | Except.ok st2 => Except.ok (some cmd, st2)
      | none => Except.ok (none, st1)

/-- LoopInnerCommon::pop_outg_for_conn (src/conn.rs lines 255-265): try each
stream id of the current table in order until one produces a command. -/
def LoopInnerCommon.pop_outg_for_conn_go (st : LoopInnerCommon) :
    List Nat → Except String (Option (Nat × HttpStreamCommand) × LoopInnerCommon)
  | [] => Except.ok (none, st)
  | stream_id :: rest =>
    match st.pop_outg_for_stream stream_id with
    | Except.error e => Except.error e
    | Except.ok (some r, st1) => Except.ok (some (stream_id, r), st1)
    | Except.ok (none, st1) => st1.pop_outg_for_conn_go rest

/-- LoopInnerCommon::pop_outg_for_conn (src/conn.rs lines 255-265). -/
def LoopInnerCommon.pop_outg_for_conn (st : LoopInnerCommon) :
    Except String (Option (Nat × HttpStreamCommand) × LoopInnerCommon) :=
  st.pop_outg_for_conn_go (st.streams.map (fun p => p.1))

/-- Fuelled worker for pop_outg_all_for_stream (src/conn.rs lines 267-273). -/
def LoopInnerCommon.pop_outg_all_for_stream_go (st : LoopInnerCommon) (stream_id : Nat)
    (acc : List HttpStreamCommand) :
    Nat → Except String (Option (List HttpStreamCommand × LoopInnerCommon))
  | 0 => Except.ok none
  | Nat.succ fuel =>
    match st.pop_outg_for_stream stream_id with
    | Except.error e => Except.error e
    | Except.ok (none, st1) => Except.ok (some (acc.reverse, st1))
    | Except.ok (some p, st1) => st1.pop_outg_all_for_stream_go stream_id (p :: acc) fuel

/-- LoopInnerCommon::pop_outg_all_for_stream (src/conn.rs lines 267-273), fuelled. -/
def LoopInnerCommon.pop_outg_all_for_stream (fuel : Nat) (st : LoopInnerCommon)
    (stream_id : Nat) : Except String (Option (List HttpStreamCommand × LoopInnerCommon)) :=
  st.pop_outg_all_for_stream_go stream_id [] fuel

/-- Fuelled worker for pop_outg_all_for_conn (src/conn.rs lines 275-281). -/
def LoopInnerCommon.pop_outg_all_for_conn_go (st : LoopInnerCommon)
    (acc : List (Nat × HttpStreamCommand)) :
    Nat → Except String (Option (List (Nat × HttpStreamCommand) × LoopInnerCommon))
  | 0 => Except.ok none
  | Nat.succ fuel =>
    match st.pop_outg_for_conn with
    | Except.error e => Except.error e
    | Except.ok (none, st1) => Except.ok (some (acc.reverse, st1))
    | Except.ok (some p, st1) => st1.pop_outg_all_for_conn_go (p :: acc) fuel

/-- LoopInnerCommon::pop_outg_all_for_conn (src/conn.rs lines 275-281), fuelled. -/
def LoopInnerCommon.pop_outg_all_for_conn (fuel : Nat) (st : LoopInnerCommon) :
    Except String (Option (List (Nat × HttpStreamCommand) × LoopInnerCommon)) :=
  st.pop_outg_all_for_conn_go [] fuel

/-- MAX_CHUNK_SIZE (src/conn.rs line 299): DATA payloads are fragmented to 8 KiB. -/
def MAX_CHUNK_SIZE : Nat := 8 * 1024

/-- The while-loop of write_part's Data branch (src/conn.rs lines 298-320):
fragment data into chunks of at most MAX_CHUNK_SIZE, setting END_STREAM only on
the chunk that reaches the end of the buffer and only if the command asked for it. -/
def write_data_frames (stream_id : Nat) (data : List Nat) (end_stream : EndStream) :
    List Frame :=
  if h : data = [] then []
  else
    Frame.Data stream_id (data.take MAX_CHUNK_SIZE)
        (decide (data.drop MAX_CHUNK_SIZE = [] ∧ end_stream = EndStream.Yes)) ::
      write_data_frames stream_id (data.drop MAX_CHUNK_SIZE) end_stream
termination_by data.length
decreasing_by
  simp only [List.length_drop]
  have hp : 0 < data.length := List.length_pos.mpr h
  simp only [MAX_CHUNK_SIZE]
  omega

/-- LoopInnerCommon::write_part (src/conn.rs lines 283-348), returning the frames
appended to the VecSendFrame target.  The HPACK encoder is external, so the
HEADERS frame carries the header block itself. -/
def write_part (stream_id : Nat) (part : HttpStreamCommand) : List Frame :=
  match part with
  | HttpStreamCommand.Data data end_stream =>
    if end_stream = EndStream.Yes ∧ data.length = 0 then
      [Frame.Data stream_id [] true]
    else
      write_data_frames stream_id data end_stream
  | HttpStreamCommand.Headers headers end_stream =>
    [Frame.HeadersF stream_id headers true (decide (end_stream = EndStream.Yes))]
  | HttpStreamCommand.Rst error_code => [Frame.RstStream stream_id error_code]

/-- LoopInnerCommon::pop_outg_all_for_stream_bytes (src/conn.rs lines 350-356),
with frames in place of serialized bytes. -/
def LoopInnerCommon.pop_outg_all_for_stream_frames (fuel : Nat) (st : LoopInnerCommon)
    (stream_id : Nat) : Except String (Option (List Frame × LoopInnerCommon)) :=
  match st.pop_outg_all_for_stream fuel stream_id with
  | Except.error e => Except.error e
  | Except.ok none => Except.ok none
  | Except.ok (some (cmds, st1)) =>
    Except.ok (some ((cmds.map (write_part stream_id)).flatten, st1))

/-- SettingsFrame as consumed by process_settings_global. -/
structure SettingsFrame where
  ack : Bool
  settings : List HttpSetting
deriving DecidableEq, Repr

/-- WindowUpdateFrame as consumed by the WINDOW_UPDATE handlers. -/
structure WindowUpdateFrame where
  stream_id : Nat
  increment : Nat
deriving DecidableEq, Repr

/-- LoopInner::ack_settings (src/conn.rs lines 394-396): send an empty SETTINGS
frame with the ACK flag. -/
def ack_settings_effects : List SideEffect :=
  [SideEffect.SendFrame (Frame.Settings true [])]

/-- The for-loop body of process_settings_global (src/conn.rs lines 418-443):
apply each setting in order.  Line 421 computes
`delta = (new_size as i32) - (old_size as i32)` with u32-to-i32 two's-complement
casts and i32 subtraction, and line 433 adds it to every live stream's
out_window_size with a raw i32 `+=`; both are modelled with wrapping i32
(release) semantics.  The loop also records whether some positive delta
occurred while streams existed. -/
def apply_settings_loop (st : LoopInnerCommon) (out_window_increased : Bool) :
    List HttpSetting → LoopInnerCommon × Bool
  | [] => (st, out_window_increased)
  | setting :: rest =>
    match setting with
    | HttpSetting.InitialWindowSize new_size =>
      let old_size := st.conn.peer_initial_window_size
      let delta : Int := wrap_i32 (i32_of_usize new_size - i32_of_usize old_size)
      let st1 :=
        if delta ≠ 0 then
          { st with streams := st.streams.map (fun p =>
              (p.1, { p.2 with out_window_size :=
                ⟨wrap_i32 (p.2.out_window_size.val + delta)⟩ })) }
        else st
      let increased1 := out_window_increased ||
        (decide (delta ≠ 0) && (!st1.streams.isEmpty && decide (delta > 0)))
      let st2 := { st1 with conn := { st1.conn with peer_initial_window_size := new_size } }
      apply_settings_loop st2 increased1 rest
    | HttpSetting.OtherSetting => apply_settings_loop st out_window_increased rest

/-- LoopInner::process_settings_global (src/conn.rs lines 411-450). -/
def process_settings_global (st : LoopInnerCommon) (frame : SettingsFrame) :
    LoopInnerCommon × List SideEffect :=
  if frame.ack then (st, [])
  else
    let (st1, out_window_increased) := apply_settings_loop st false frame.settings
    (st1, ack_settings_effects ++
      (if out_window_increased then [SideEffect.TryFlushStream none] else []))

/-- LoopInner::process_stream_window_update_frame (src/conn.rs lines 452-470);
the .expect on try_increase overflow is an Except.error. -/
def process_stream_window_update_frame (st : LoopInnerCommon) (frame : WindowUpdateFrame) :
    Except String (LoopInnerCommon × List SideEffect) :=
  match get_stream st.streams frame.stream_id with
  | some stream =>
    match stream.out_window_size.try_increase frame.increment with
    | none => Except.error "failed to increment stream window"
    | some w =>
      Except.ok
        ({ st with streams :=
            update_stream st.streams frame.stream_id { stream with out_window_size := w } },
          [SideEffect.TryFlushStream (some frame.stream_id)])
  | none => Except.ok (st, [SideEffect.TryFlushStream (some frame.stream_id)])

/-- LoopInner::process_conn_window_update (src/conn.rs lines 472-476). -/
def process_conn_window_update (st : LoopInnerCommon) (frame : WindowUpdateFrame) :
    Except String (LoopInnerCommon × List SideEffect) :=
  match st.conn.out_window_size.try_increase frame.increment with
  | none => Except.error "failed to increment conn window"
  | some w =>
    Except.ok ({ st with conn := { st.conn with out_window_size := w } },
      [SideEffect.TryFlushStream none])

/-- LoopInner::process_rst_stream_frame (src/conn.rs lines 478-482): the
.expect panic on an unknown stream is an Except.error; the stream's rst
callback is a side effect. -/
def process_rst_stream_frame (st : LoopInnerCommon) (stream_id : Nat)
    (error_code : ErrorCode) : Except String (LoopInnerCommon × List SideEffect) :=
  match get_stream st.streams stream_id with
  | none => Except.error ("stream not found: " ++ toString stream_id)
  | some _ => Except.ok (st, [SideEffect.RstCallback stream_id error_code])

/-- LoopInner::process_data_frame (src/conn.rs lines 484-530).  Every .expect on
window arithmetic or stream lookup is an Except.error. -/
def process_data_frame (st : LoopInnerCommon) (stream_id : Nat) (data : List Nat)
    (is_end_of_stream : Bool) : Except String (LoopInnerCommon × List SideEffect) :=
  match st.conn.decrease_in_window data.length with
  | none => Except.error "failed to decrease conn win"
  | some conn1 =>
    let st := { st with conn := conn1 }
    match
      (if st.conn.in_window_size.size < ((DEFAULT_INITIAL_WINDOW_SIZE / 2 : Nat) : Int) then
        match st.conn.in_window_size.try_increase DEFAULT_INITIAL_WINDOW_SIZE with
        | none => Except.error "failed to increase"
        | some w =>
          Except.ok ({ st with conn := { st.conn with in_window_size := w } },
            some DEFAULT_INITIAL_WINDOW_SIZE)
      else Except.ok (st, none) :
        Except String (LoopInnerCommon × Option Nat)) with
    | Except.error e => Except.error e
    | Except.ok (st, increment_conn) =>
      match get_stream st.streams stream_id with
      | none => Except.error ("stream not found: " ++ toString stream_id)
      | some stream =>
        match stream.in_window_size.try_decrease (i32_of_usize data.length) with
        | none => Except.error "failed to decrease stream win"
        | some win1 =>
          let stream := { stream with in_window_size := win1 }
          match
            (if stream.in_window_size.size <
                ((DEFAULT_INITIAL_WINDOW_SIZE / 2 : Nat) : Int) then
              match stream.in_window_size.try_increase DEFAULT_INITIAL_WINDOW_SIZE with
              | none => Except.error "failed to increase"
              | some w =>
                Except.ok ({ stream with in_window_size := w }, some DEFAULT_INITIAL_WINDOW_SIZE)
            else Except.ok (stream, none) :
              Except String (HttpStreamCommon × Option Nat)) with
          | Except.error e => Except.error e
          | Except.ok (stream, increment_stream) =>
            let st := { st with streams := update_stream st.streams stream_id stream }
            let effects :=
              [SideEffect.NewDataChunk stream_id data is_end_of_stream] ++
              (match increment_conn with
                | some inc => [SideEffect.SendFrame (Frame.WindowUpdate 0 inc)]
                | none => []) ++
              (match increment_stream with
                | some inc => [SideEffect.SendFrame (Frame.WindowUpdate stream_id inc)]
                | none => [])
            Except.ok (st, effects)

/-- Stream-scoped frames after classification (HttpFrameStream in solicit_misc),
with CONTINUATION already joined into HEADERS and header blocks already decoded
(the HPACK decoder is an external collaborator). -/
inductive HttpFrameStream
  | Data (stream_id : Nat) (data : List Nat) (end_stream : Bool)
  | HeadersS (stream_id : Nat) (headers : HeaderBlock) (end_stream : Bool)
  | RstStream (stream_id : Nat) (error_code : ErrorCode)
  | WindowUpdate (stream_id : Nat) (increment : Nat)
deriving DecidableEq, Repr

def HttpFrameStream.get_stream_id : HttpFrameStream → Nat
  | HttpFrameStream.Data stream_id _ _ => stream_id
  | HttpFrameStream.HeadersS stream_id _ _ => stream_id
  | HttpFrameStream.RstStream stream_id _ => stream_id
  | HttpFrameStream.WindowUpdate stream_id _ => stream_id

/-- Modelled from the spec: HttpFrameStream::is_end_of_stream (solicit_misc, not
under src/).  DATA and HEADERS report their END_STREAM flag; RST_STREAM closes
both half-directions, so the dispatcher observes end-of-stream for it;
WINDOW_UPDATE never ends a stream. -/
def HttpFrameStream.is_end_of_stream : HttpFrameStream → Bool
  | HttpFrameStream.Data _ _ end_stream => end_stream
  | HttpFrameStream.HeadersS _ _ end_stream => end_stream
  | HttpFrameStream.RstStream _ _ => true
  | HttpFrameStream.WindowUpdate _ _ => false

/-- LoopInner::close_remote (src/conn.rs lines 587-601): close the remote half,
fire the closed_remote callback, and sweep the stream if it became Closed. -/
def conn_close_remote (st : LoopInnerCommon) (stream_id : Nat) :
    Except String (LoopInnerCommon × List SideEffect) :=
  match get_stream st.streams stream_id with
  | none => Except.ok (st, [])
  | some stream =>
    let st1 := { st with streams := update_stream st.streams stream_id stream.close_remote }
    match st1.remove_stream_if_closed stream_id with
    | Except.error e => Except.error e
    | Except.ok st2 => Except.ok (st2, [SideEffect.ClosedRemote stream_id])

/-- LoopInner::close_local (src/conn.rs lines 603-616): close the local half and
sweep the stream if it became Closed. -/
def conn_close_local (st : LoopInnerCommon) (stream_id : Nat) :
    Except String LoopInnerCommon :=
  match get_stream st.streams stream_id with
  | none => Except.ok st
  | some stream =>
    let st1 := { st with streams := update_stream st.streams stream_id stream.close_local }
    st1.remove_stream_if_closed stream_id

/-- LoopInner::process_stream_frame (src/conn.rs lines 553-575): dispatch the
frame, then run the state-closure post-pass (close_remote on end-of-stream,
close_local additionally for RST_STREAM). -/
def process_stream_frame (st : LoopInnerCommon) (frame : HttpFrameStream) :
    Except String (LoopInnerCommon × List SideEffect) :=
  let stream_id := frame.get_stream_id
  let end_of_stream := frame.is_end_of_stream
  let close_local_flag := match frame with
    | HttpFrameStream.RstStream _ _ => true
    | _ => false
  match
    (match frame with
      | HttpFrameStream.Data sid d e => process_data_frame st sid d e
      | HttpFrameStream.HeadersS sid h e =>
        Except.ok (st,
          [SideEffect.ProcessHeaders sid (if e then EndStream.Yes else EndStream.No) h])
      | HttpFrameStream.RstStream sid code => process_rst_stream_frame st sid code
      | HttpFrameStream.WindowUpdate sid inc =>
        process_stream_window_update_frame st ⟨sid, inc⟩) with
  | Except.error e => Except.error e
  | Except.ok (st1, effects1) =>
    match (if end_of_stream then conn_close_remote st1 stream_id
           else Except.ok (st1, [])) with
    | Except.error e => Except.error e
    | Except.ok (st2, effects2) =>
      match (if close_local_flag then conn_close_local st2 stream_id
             else Except.ok st2) with
      | Except.error e => Except.error e
      | Except.ok st3 => Except.ok (st3, effects1 ++ effects2)

/-- Operations the connection core can apply to one stream's HttpStreamCommon.
Together they generate every reachable per-stream state: the producer side
enqueues parts and sets outgoing_end (a set outgoing_end forbids further
enqueues, spec invariant 6), the scheduler pops, the dispatcher closes the
remote half on end-of-stream, closes both halves on RST_STREAM, and adjusts
the out-window for SETTINGS and WINDOW_UPDATE. -/
inductive StreamOp
  | enqueue (part : HttpStreamPartContent)
  | set_end (code : ErrorCode)
  | pop (conn : WindowSize)
  | close_remote_op
  | rst_dispatch
  | add_out_window (delta : Int)
  | increase_out_window (increment : Nat)

/-- One connection-core operation applied to a stream; none when the operation
is not permitted there (producer-side guard) or the code would panic. -/
def stream_step (s : HttpStreamCommon) : StreamOp → Option HttpStreamCommon
  | StreamOp.enqueue part =>
    match s.outgoing_end with
    | none => some { s with outgoing := s.outgoing ++ [part] }
    | some _ => none
  | StreamOp.set_end code =>
    match s.outgoing_end with
    | none => some { s with outgoing_end := some code }
    | some _ => none
  | StreamOp.pop conn =>
    match s.pop_outg conn with
    | Except.ok (_, s1, _) => some s1
    | Except.error _ => none
  | StreamOp.close_remote_op => some s.close_remote
  | StreamOp.rst_dispatch => some s.close_remote.close_local
  | StreamOp.add_out_window delta =>
    some { s with out_window_size := ⟨wrap_i32 (s.out_window_size.val + delta)⟩ }
  | StreamOp.increase_out_window increment =>
    match s.out_window_size.try_increase increment with
    | some w => some { s with out_window_size := w }
    | none => none

/-- Run a sequence of connection-core operations on a stream. -/
def stream_run (s : HttpStreamCommon) : List StreamOp → Option HttpStreamCommon
  | [] => some s
  | op :: ops =>
    match stream_step s op with
    | some s1 => stream_run s1 ops
    | none => none

/-- A per-stream state is reachable when some operation sequence produces it
from a freshly created stream. -/
def stream_reachable (s : HttpStreamCommon) : Prop :=
  ∃ w ops, stream_run (HttpStreamCommon.new w) ops = some s

/-- Payload carried by a serialized frame (empty for non-DATA frames). -/
def frame_payload : Frame → List Nat
  | Frame.Data _ data _ => data
  | _ => []

/-- END_STREAM flag carried by a serialized frame. -/
def frame_end_stream : Frame → Bool
  | Frame.Data _ _ end_stream => end_stream
  | Frame.HeadersF _ _ _ end_stream => end_stream
  | _ => false

/-- Stream with one queued byte of data and out-window 1: the failing input of
C1 and C10 once the connection out-window is 0. -/
def c1_stream : HttpStreamCommon :=
  { state := StreamState.Open
    out_window_size := ⟨1⟩
    in_window_size := ⟨65535⟩
    outgoing := [HttpStreamPartContent.Data [0]]
    outgoing_end := none }

/-- Connection holding c1_stream as stream 1 with the connection out-window
already exhausted. -/
def c1_state : LoopInnerCommon :=
  { conn := { out_window_size := ⟨0⟩, in_window_size := ⟨65535⟩,
              peer_initial_window_size := 65535 }
    streams := [(1, c1_stream)] }

theorem c1_pop_outg_fixpoint :
    c1_stream.pop_outg ⟨0⟩ =
      Except.ok (some (HttpStreamCommand.Data [] EndStream.No), c1_stream, ⟨0⟩) := rfl

theorem c1_pop_outg_for_stream_fixpoint :
    c1_state.pop_outg_for_stream 1 =
      Except.ok (some (HttpStreamCommand.Data [] EndStream.No), c1_state) := rfl

theorem c1_pop_outg_for_conn_fixpoint :
    c1_state.pop_outg_for_conn =
      Except.ok (some (1, HttpStreamCommand.Data [] EndStream.No), c1_state) := rfl

theorem c1_pop_outg_all_go_spins (acc : List HttpStreamCommand) :
    ∀ fuel, c1_stream.pop_outg_all_go ⟨0⟩ acc fuel = Except.ok none := by
  intro fuel
  induction fuel generalizing acc with
  | zero => rfl
  | succ n ih =>
    simp only [HttpStreamCommon.pop_outg_all_go, c1_pop_outg_fixpoint]
    exact ih _

theorem c1_pop_outg_all_for_stream_go_spins (acc : List HttpStreamCommand) :
    ∀ fuel, c1_state.pop_outg_all_for_stream_go 1 acc fuel = Except.ok none := by
  intro fuel
  induction fuel generalizing acc with
  | zero => rfl
  | succ n ih =>
    simp only [LoopInnerCommon.pop_outg_all_for_stream_go, c1_pop_outg_for_stream_fixpoint]
    exact ih _

theorem c1_pop_outg_all_for_conn_go_spins (acc : List (Nat × HttpStreamCommand)) :
    ∀ fuel, c1_state.pop_outg_all_for_conn_go acc fuel = Except.ok none := by
  intro fuel
  induction fuel generalizing acc with
  | zero => rfl
  | succ n ih =>
    simp only [LoopInnerCommon.pop_outg_all_for_conn_go, c1_pop_outg_for_conn_fixpoint]
    exact ih _

/-- C1: the claim says pop_outgoing returns None whenever the front of the
queue is Data and min(out_window_size, conn_out_window) is non-positive, in
particular when the connection out-window is 0 and the stream window positive.
The code instead skips the min check after the stream-window test: at the
failing input (one queued data byte, stream out-window 1, connection
out-window 0) it returns Some(Data(empty, EndStream::No)) and leaves the
stream, its queue and both windows exactly unchanged. -/
theorem C1_pop_outg_conn_window_zero_emits_empty_data :
    c1_stream.pop_outg ⟨0⟩ =
      Except.ok (some (HttpStreamCommand.Data [] EndStream.No), c1_stream, ⟨0⟩) := rfl

/-- C10: the claim says the drain loops always terminate.  At the C1 failing
input (data queued, stream window positive, connection out-window 0) pop_outg
is a fixpoint that keeps producing Some, so pop_outg_all, pop_outg_all_for_stream
and pop_outg_all_for_conn never stop: with any fuel n the fuelled loops exhaust
all n iterations without the while-condition ever becoming false. -/
theorem C10_drain_loops_do_not_terminate :
    ∀ fuel : Nat,
      HttpStreamCommon.pop_outg_all fuel c1_stream ⟨0⟩ = Except.ok none ∧
      LoopInnerCommon.pop_outg_all_for_stream fuel c1_state 1 = Except.ok none ∧
      LoopInnerCommon.pop_outg_all_for_conn fuel c1_state = Except.ok none :=
  fun fuel =>
    ⟨c1_pop_outg_all_go_spins [] fuel,
     c1_pop_outg_all_for_stream_go_spins [] fuel,
     c1_pop_outg_all_for_conn_go_spins [] fuel⟩

/-- Stream whose out-window already sits at the 2^31 - 1 maximum: any positive
WINDOW_UPDATE overflows it. -/
def c6_stream : HttpStreamCommon :=
  { state := StreamState.Open
    out_window_size := ⟨2147483647⟩
    in_window_size := ⟨65535⟩
    outgoing := []
    outgoing_end := none }

/-- Connection holding c6_stream as stream 1. -/
def c6_state : LoopInnerCommon :=
  { conn := { out_window_size := ⟨65535⟩, in_window_size := ⟨65535⟩,
              peer_initial_window_size := 65535 }
    streams := [(1, c6_stream)] }

/-- C6 counterexample: the claim says a WINDOW_UPDATE overflow on an existing
stream is handled as a stream error by emitting RST_STREAM(FlowControlError)
with the connection surviving.  At stream out-window 2^31 - 1 and increment 1
the code instead hits .expect("failed to increment stream window") and the
process panics: no RST_STREAM, no flush, no surviving connection. -/
theorem C6_counterexample_overflow_panics :
    process_stream_window_update_frame c6_state ⟨1, 1⟩ =
      Except.error "failed to increment stream window" := rfl

/-- C6 amended: for a WINDOW_UPDATE with stream-id > 0, if the stream exists
and the increment does not overflow, its out_window_size is increased and a
flush for that stream-id is triggered; if the increment overflows, the process
panics (no RST_STREAM is emitted and the connection does not survive); if the
stream is unknown, the frame is ignored and a flush for that stream-id is
still triggered. -/
theorem C6_amended_window_update_behaviour (st : LoopInnerCommon)
    (frame : WindowUpdateFrame) :
    (∀ stream w, get_stream st.streams frame.stream_id = some stream →
      stream.out_window_size.try_increase frame.increment = some w →
      process_stream_window_update_frame st frame =
        Except.ok
          ({ st with streams := (update_stream st.streams frame.stream_id
              { stream with out_window_size := w }) },
            [SideEffect.TryFlushStream (some frame.stream_id)])) ∧
    (∀ stream, get_stream st.streams frame.stream_id = some stream →
      stream.out_window_size.try_increase frame.increment = none →
      process_stream_window_update_frame st frame =
        Except.error "failed to increment stream window") ∧
    (get_stream st.streams frame.stream_id = none →
      process_stream_window_update_frame st frame =
        Except.ok (st, [SideEffect.TryFlushStream (some frame.stream_id)])) := by
  refine ⟨?_, ?_, ?_⟩
  · intro stream w hget hinc
    simp only [process_stream_window_update_frame, hget, hinc]
  · intro stream hget hinc
    simp only [process_stream_window_update_frame, hget, hinc]
  · intro hget
    simp only [process_stream_window_update_frame, hget]

/-- Witness for C6 amended: a concrete successful increase, a concrete
overflow panic, and a concrete ignored update for an unknown stream. -/
theorem C6_amended_witness :
    process_stream_window_update_frame c6_state ⟨1, 0⟩ =
      Except.ok
        ({ c6_state with streams := (update_stream c6_state.streams 1
            { c6_stream with out_window_size := ⟨2147483647⟩ }) },
          [SideEffect.TryFlushStream (some 1)]) ∧
    process_stream_window_update_frame c6_state ⟨1, 1⟩ =
      Except.error "failed to increment stream window" ∧
    process_stream_window_update_frame c6_state ⟨2, 5⟩ =
      Except.ok (c6_state, [SideEffect.TryFlushStream (some 2)]) :=
  ⟨(C6_amended_window_update_behaviour c6_state ⟨1, 0⟩).1 c6_stream ⟨2147483647⟩
      (by rfl) (by rfl),
   (C6_amended_window_update_behaviour c6_state ⟨1, 1⟩).2.1 c6_stream (by rfl) (by rfl),
   (C6_amended_window_update_behaviour c6_state ⟨2, 5⟩).2.2 (by rfl)⟩

/-- Connection with an empty stream table, used by the C9 failing input. -/
def c9_state : LoopInnerCommon :=
  { conn := { out_window_size := ⟨65535⟩, in_window_size := ⟨65535⟩,
              peer_initial_window_size := 65535 }
    streams := [] }

/-- C9 counterexample: the claim says a DATA frame for a stream absent from the
table is handled as a stream error without crashing the process.  With an
empty stream table the code instead hits .expect("stream not found") and the
process panics. -/
theorem C9_counterexample_data_unknown_stream_panics :
    process_data_frame c9_state 1 [] false =
      Except.error ("stream not found: " ++ toString (1 : Nat)) := rfl

/-- C9 amended: the per-frame policy for a stream absent from the table is
WINDOW_UPDATE → ignored without error (a flush is still triggered), but
DATA → process panic ("stream not found"), not a stream error. -/
theorem C9_amended_unknown_stream_policy :
    (∀ (st : LoopInnerCommon) (frame : WindowUpdateFrame),
      get_stream st.streams frame.stream_id = none →
      process_stream_window_update_frame st frame =
        Except.ok (st, [SideEffect.TryFlushStream (some frame.stream_id)])) ∧
    (∀ (st : LoopInnerCommon) (stream_id : Nat),
      get_stream st.streams stream_id = none →
      ¬ st.conn.in_window_size.size < 32767 →
      process_data_frame st stream_id [] false =
        Except.error ("stream not found: " ++ toString stream_id)) := by
  constructor
  · intro st frame hget
    simp only [process_stream_window_update_frame, hget]
  · intro st stream_id hget hwin
    have hge : (32767 : Int) ≤ st.conn.in_window_size.size := not_lt.mp hwin
    have hdec : st.conn.decrease_in_window 0 = some st.conn := by
      simp only [HttpConnection.decrease_in_window, WindowSize.try_decrease, i32_of_usize,
        WindowSize.size] at hge ⊢
      norm_num
      refine ⟨st.conn.in_window_size, ⟨⟨?_, rfl⟩, rfl⟩⟩
      omega
    simp only [process_data_frame, List.length_nil, hdec]
    have hlt :
        ¬ st.conn.in_window_size.size < ((DEFAULT_INITIAL_WINDOW_SIZE / 2 : Nat) : Int) := by
      simpa [DEFAULT_INITIAL_WINDOW_SIZE] using hwin
    simp only [if_neg hlt, hget]

/-- Witness for C9 amended: both unknown-stream policies at concrete inputs. -/
theorem C9_amended_witness :
    process_stream_window_update_frame c9_state ⟨1, 5⟩ =
      Except.ok (c9_state, [SideEffect.TryFlushStream (some 1)]) ∧
    process_data_frame c9_state 1 [] false =
      Except.error ("stream not found: " ++ toString (1 : Nat)) :=
  ⟨C9_amended_unknown_stream_policy.1 c9_state ⟨1, 5⟩ (by rfl),
   C9_amended_unknown_stream_policy.2 c9_state 1 (by rfl) (by decide)⟩

/-- Stream with a full in-window, receiving side, for the C5 failing input. -/
def c5_stream : HttpStreamCommon :=
  { state := StreamState.Open
    out_window_size := ⟨65535⟩
    in_window_size := ⟨65535⟩
    outgoing := []
    outgoing_end := none }

/-- Connection whose in-window sits just above the half-initial threshold. -/
def c5_state : LoopInnerCommon :=
  { conn := { out_window_size := ⟨65535⟩, in_window_size := ⟨32767⟩,
              peer_initial_window_size := 65535 }
    streams := [(1, c5_stream)] }

/-- Connection state after the C5 failing input is processed. -/
def c5_state_after : LoopInnerCommon :=
  { conn := { out_window_size := ⟨65535⟩, in_window_size := ⟨98301⟩,
              peer_initial_window_size := 65535 }
    streams := [(1, { c5_stream with in_window_size := ⟨65534⟩ })] }

/-- C5 counterexample: the claim says that when a DATA frame brings the
connection in-window below initial_window_size / 2 the code restores it to
exactly initial_window_size (65535) and sends a WINDOW_UPDATE whose increment
is the amount needed for that top-up.  At conn in-window 32767 and a 1-byte
DATA frame, the window falls to 32766 (below 32767) and the code then ADDS
65535: the window ends at 98301, not 65535, and the emitted increment is
65535, not the 32769 a top-up to initial would need. -/
theorem C5_counterexample_topup_overshoots :
    process_data_frame c5_state 1 [7] false =
      Except.ok (c5_state_after,
        [SideEffect.NewDataChunk 1 [7] false,
         SideEffect.SendFrame (Frame.WindowUpdate 0 65535)]) ∧
    c5_state_after.conn.in_window_size.size = 98301 ∧
    (98301 : Int) ≠ 65535 ∧ (65535 : Nat) ≠ 65535 - 32766 :=
  ⟨rfl, rfl, by decide, by decide⟩

/-- C5 amended: when a DATA frame takes an in-window (connection or stream)
below initial_window_size / 2 = 32767, the code increases that window by
initial_window_size = 65535 — leaving it at old − payload + 65535, generally
above the initial value — and sends the corresponding WINDOW_UPDATE with
increment exactly 65535; windows at or above the threshold are left at
old − payload with no WINDOW_UPDATE. -/
theorem C5_amended_data_frame_adds_initial (st : LoopInnerCommon) (stream_id : Nat)
    (data : List Nat) (eos : Bool) (s : HttpStreamCommon)
    (hget : get_stream st.streams stream_id = some s)
    (hlen : (data.length : Int) < 2 ^ 31)
    (hcw : -(2 ^ 31) ≤ st.conn.in_window_size.val - data.length)
    (hsw : -(2 ^ 31) ≤ s.in_window_size.val - data.length) :
    process_data_frame st stream_id data eos =
      Except.ok
        ({ st with
            conn := { st.conn with in_window_size :=
              ⟨if st.conn.in_window_size.val - data.length < 32767 then
                  st.conn.in_window_size.val - data.length + 65535
                else st.conn.in_window_size.val - data.length⟩ }
            streams := (update_stream st.streams stream_id
              { s with in_window_size :=
                ⟨if s.in_window_size.val - data.length < 32767 then
                    s.in_window_size.val - data.length + 65535
                  else s.in_window_size.val - data.length⟩ }) },
          [SideEffect.NewDataChunk stream_id data eos] ++
            (if st.conn.in_window_size.val - data.length < 32767 then
              [SideEffect.SendFrame (Frame.WindowUpdate 0 65535)] else []) ++
            (if s.in_window_size.val - data.length < 32767 then
              [SideEffect.SendFrame (Frame.WindowUpdate stream_id 65535)] else [])) := by
  have hn : data.length < 2 ^ 31 := by exact_mod_cast hlen
  have hlen2 : i32_of_usize data.length = (data.length : Int) := by
    simp only [i32_of_usize]
    rw [Nat.mod_eq_of_lt (by omega : data.length < 2 ^ 32), if_pos hn]
  have hdec : st.conn.decrease_in_window data.length =
      some { st.conn with in_window_size := ⟨st.conn.in_window_size.val - data.length⟩ } := by
    simp only [HttpConnection.decrease_in_window, WindowSize.try_decrease, hlen2,
      WindowSize.size]
    rw [if_neg (by push_cast; omega)]
    rfl
  have h65 : ((65535 / 2 : Nat) : Int) = 32767 := by norm_num
  have h65c : ((65535 : Nat) : Int) = 65535 := by norm_num
  simp only [process_data_frame, hdec, WindowSize.size, DEFAULT_INITIAL_WINDOW_SIZE,
    WindowSize.try_increase, WindowSize.try_decrease, hlen2, h65, h65c]
  by_cases hc : st.conn.in_window_size.val - (data.length : Int) < 32767
  · rw [if_pos hc, if_neg (by omega :
      ¬((65535 : Int) > 2 ^ 31 - 1 ∨
        st.conn.in_window_size.val - (data.length : Int) + 65535 > 2 ^ 31 - 1))]
    dsimp only
    rw [hget]
    dsimp only
    rw [if_neg (by push_cast; omega :
      ¬((data.length : Int) < 0 ∨ (data.length : Int) > 2 ^ 31 - 1 ∨
        s.in_window_size.val - (data.length : Int) < -2 ^ 31))]
    dsimp only
    by_cases hs2 : s.in_window_size.val - (data.length : Int) < 32767
    · rw [if_pos hs2, if_neg (by omega :
        ¬((65535 : Int) > 2 ^ 31 - 1 ∨
          s.in_window_size.val - (data.length : Int) + 65535 > 2 ^ 31 - 1))]
      simp [hc, hs2]
    · rw [if_neg hs2]
      simp [hc, hs2]
  · rw [if_neg hc]
    dsimp only
    rw [hget]
    dsimp only
    rw [if_neg (by push_cast; omega :
      ¬((data.length : Int) < 0 ∨ (data.length : Int) > 2 ^ 31 - 1 ∨
        s.in_window_size.val - (data.length : Int) < -2 ^ 31))]
    dsimp only
    by_cases hs2 : s.in_window_size.val - (data.length : Int) < 32767
    · rw [if_pos hs2, if_neg (by omega :
        ¬((65535 : Int) > 2 ^ 31 - 1 ∨
          s.in_window_size.val - (data.length : Int) + 65535 > 2 ^ 31 - 1))]
      simp [hc, hs2]
    · rw [if_neg hs2]
      simp [hc, hs2]

/-- Witness for C5 amended: the failing input of the counterexample satisfies
the hypotheses and exhibits the add-initial behaviour. -/
theorem C5_amended_witness :
    process_data_frame c5_state 1 [7] false =
      Except.ok
        ({ c5_state with
            conn := { c5_state.conn with in_window_size :=
              ⟨if c5_state.conn.in_window_size.val - ([7] : List Nat).length < 32767 then
                  c5_state.conn.in_window_size.val - ([7] : List Nat).length + 65535
                else c5_state.conn.in_window_size.val - ([7] : List Nat).length⟩ }
            streams := (update_stream c5_state.streams 1
              { c5_stream with in_window_size :=
                ⟨if c5_stream.in_window_size.val - ([7] : List Nat).length < 32767 then
                    c5_stream.in_window_size.val - ([7] : List Nat).length + 65535
                  else c5_stream.in_window_size.val - ([7] : List Nat).length⟩ }) },
          [SideEffect.NewDataChunk 1 [7] false] ++
            (if c5_state.conn.in_window_size.val - ([7] : List Nat).length < 32767 then
              [SideEffect.SendFrame (Frame.WindowUpdate 0 65535)] else []) ++
            (if c5_stream.in_window_size.val - ([7] : List Nat).length < 32767 then
              [SideEffect.SendFrame (Frame.WindowUpdate 1 65535)] else [])) :=
  C5_amended_data_frame_adds_initial c5_state 1 [7] false c5_stream (by rfl)
    (by decide) (by decide) (by decide)

theorem get_stream_update_self (l : List (Nat × HttpStreamCommon)) (stream_id : Nat)
    (v s : HttpStreamCommon) (h : get_stream l stream_id = some s) :
    get_stream (update_stream l stream_id v) stream_id = some v := by
  induction l with
  | nil => simp [get_stream] at h
  | cons p rest ih =>
    obtain ⟨k, w⟩ := p
    by_cases hk : k = stream_id
    · simp [get_stream, update_stream, hk]
    · simp only [get_stream, update_stream, if_neg hk] at h ⊢
      exact ih h

/-- Concrete header block used by the C3 failing input. -/
def c3_h : HeaderBlock := [([104], [97])]

/-- Stream with exactly one queued Headers part and outgoing_end = NoError. -/
def c3_stream : HttpStreamCommon :=
  { state := StreamState.Open
    out_window_size := ⟨65535⟩
    in_window_size := ⟨65535⟩
    outgoing := [HttpStreamPartContent.Headers c3_h]
    outgoing_end := some ErrorCode.NoError }

/-- Connection holding c3_stream as stream 1. -/
def c3_state : LoopInnerCommon :=
  { conn := { out_window_size := ⟨65535⟩, in_window_size := ⟨65535⟩,
              peer_initial_window_size := 65535 }
    streams := [(1, c3_stream)] }

/-- The stream after the C3 flush: drained and half-closed locally. -/
def c3_stream_after : HttpStreamCommon :=
  { c3_stream with outgoing := [], state := StreamState.HalfClosedLocal }

/-- The connection after the C3 flush. -/
def c3_state_after : LoopInnerCommon :=
  { c3_state with streams := [(1, c3_stream_after)] }

/-- C3 counterexample: the claim says flushing a stream whose queue holds one
Headers part with outgoing_end = NoError emits HEADERS(END_HEADERS) followed
by a separate empty DATA frame with END_STREAM, leaving the stream Closed.
The code instead marks the HEADERS command itself as last, emitting a single
HEADERS frame carrying both END_HEADERS and END_STREAM and no DATA frame, and
the stream ends up HalfClosedLocal (still in the table), not Closed. -/
theorem C3_counterexample_single_headers_frame :
    LoopInnerCommon.pop_outg_all_for_stream_frames 2 c3_state 1 =
      Except.ok (some ([Frame.HeadersF 1 c3_h true true], c3_state_after)) ∧
    get_stream c3_state_after.streams 1 = some c3_stream_after ∧
    c3_stream_after.state = StreamState.HalfClosedLocal ∧
    StreamState.HalfClosedLocal ≠ StreamState.Closed ∧
    [Frame.HeadersF 1 c3_h true true] ≠
      [Frame.HeadersF 1 c3_h true false, Frame.Data 1 [] true] :=
  ⟨rfl, rfl, rfl, by decide, by decide⟩

/-- C3 amended: for a stream whose outgoing queue contains exactly one Headers
part and whose outgoing_end is NoError, a flush emits a single HEADERS frame
carrying both END_HEADERS and END_STREAM (no separate empty DATA frame), and
the stream's state afterwards is HalfClosedLocal, not Closed, so it stays in
the stream table. -/
theorem C3_amended_headers_only_flush (st : LoopInnerCommon) (stream_id : Nat)
    (hb : HeaderBlock) (s : HttpStreamCommon)
    (hget : get_stream st.streams stream_id = some s)
    (hq : s.outgoing = [HttpStreamPartContent.Headers hb])
    (hend : s.outgoing_end = some ErrorCode.NoError)
    (hstate : s.state = StreamState.Open) :
    ∃ stf : LoopInnerCommon,
      LoopInnerCommon.pop_outg_all_for_stream_frames 2 st stream_id =
        Except.ok (some ([Frame.HeadersF stream_id hb true true], stf)) ∧
      get_stream stf.streams stream_id =
        some { s with outgoing := [], state := StreamState.HalfClosedLocal } := by
  have hpop : ∀ cw : WindowSize, s.pop_outg cw =
      Except.ok (some (HttpStreamCommand.Headers hb EndStream.Yes),
        { s with outgoing := [], state := StreamState.HalfClosedLocal }, cw) := by
    intro cw
    simp [HttpStreamCommon.pop_outg, hq, hend, HttpStreamCommon.close_local, hstate,
      HttpStreamCommand.fromPart]
  have hpop2 : ∀ cw : WindowSize,
      ({ s with outgoing := [], state := StreamState.HalfClosedLocal }).pop_outg cw =
        Except.ok (none, { s with outgoing := [], state := StreamState.HalfClosedLocal }, cw) := by
    intro cw
    simp [HttpStreamCommon.pop_outg, hend, StreamState.is_closed_local]
  have hupd1 : get_stream
      (update_stream st.streams stream_id
        { s with outgoing := [], state := StreamState.HalfClosedLocal }) stream_id =
      some { s with outgoing := [], state := StreamState.HalfClosedLocal } :=
    get_stream_update_self _ _ _ _ hget
  have hupd2 : get_stream
      (update_stream
        (update_stream st.streams stream_id
          { s with outgoing := [], state := StreamState.HalfClosedLocal }) stream_id
        { s with outgoing := [], state := StreamState.HalfClosedLocal }) stream_id =
      some { s with outgoing := [], state := StreamState.HalfClosedLocal } :=
    get_stream_update_self _ _ _ _ hupd1
  refine ⟨{ st with streams := (update_stream
      (update_stream st.streams stream_id
        { s with outgoing := [], state := StreamState.HalfClosedLocal }) stream_id
      { s with outgoing := [], state := StreamState.HalfClosedLocal }) }, ?_, hupd2⟩
  simp only [LoopInnerCommon.pop_outg_all_for_stream_frames,
    LoopInnerCommon.pop_outg_all_for_stream, LoopInnerCommon.pop_outg_all_for_stream_go,
    LoopInnerCommon.pop_outg_for_stream, hget, hpop, LoopInnerCommon.remove_stream_if_closed,
    hupd1, hupd2, hpop2]
  simp [write_part, hupd1, hupd2, hpop2]

/-- Witness for C3 amended: the concrete C3 state satisfies the hypotheses. -/
theorem C3_amended_witness :
    ∃ stf : LoopInnerCommon,
      LoopInnerCommon.pop_outg_all_for_stream_frames 2 c3_state 1 =
        Except.ok (some ([Frame.HeadersF 1 c3_h true true], stf)) ∧
      get_stream stf.streams 1 =
        some { c3_stream with outgoing := [], state := StreamState.HalfClosedLocal } :=
  C3_amended_headers_only_flush c3_state 1 c3_h c3_stream (by rfl) (by rfl) (by rfl) (by rfl)

theorem wrap_i32_eq_self (x : Int) (h1 : -(2 ^ 31) ≤ x) (h2 : x < 2 ^ 31) :
    wrap_i32 x = x := by
  simp only [wrap_i32]
  omega

theorem map_wrap_window_id (l : List (Nat × HttpStreamCommon))
    (hw : ∀ p ∈ l, -(2 ^ 31) ≤ p.2.out_window_size.val ∧ p.2.out_window_size.val < 2 ^ 31) :
    l.map (fun p => (p.1,
      { p.2 with out_window_size := ⟨wrap_i32 p.2.out_window_size.val⟩ })) = l := by
  induction l with
  | nil => rfl
  | cons p rest ih =>
    obtain ⟨k, v⟩ := p
    have hv := hw (k, v) (List.mem_cons_self _ _)
    simp only [List.map_cons]
    rw [wrap_i32_eq_self _ hv.1 hv.2]
    simp [ih (fun q hq => hw q (List.mem_cons_of_mem _ hq))]

/-- Stream with the default out-window, used by the C4 failing input. -/
def c4_stream : HttpStreamCommon :=
  { state := StreamState.Open
    out_window_size := ⟨65535⟩
    in_window_size := ⟨65535⟩
    outgoing := []
    outgoing_end := none }

/-- Connection holding c4_stream as stream 1, peer initial window 65535. -/
def c4_state : LoopInnerCommon :=
  { conn := { out_window_size := ⟨65535⟩, in_window_size := ⟨65535⟩,
              peer_initial_window_size := 65535 }
    streams := [(1, c4_stream)] }

/-- Connection after SETTINGS INITIAL_WINDOW_SIZE = 2^32 - 1 hits c4_state:
the u32 value reinterprets as i32 -1, so delta = -1 - 65535 = -65536 and the
stream window wraps from 65535 to -1. -/
def c4_state_after : LoopInnerCommon :=
  { conn := { out_window_size := ⟨65535⟩, in_window_size := ⟨65535⟩,
              peer_initial_window_size := 4294967295 }
    streams := [(1, { c4_stream with out_window_size := ⟨-1⟩ })] }

/-- C4 counterexample: the claim says a SETTINGS change of INITIAL_WINDOW_SIZE
from old to new adds the exact signed delta new - old to every live stream and
flushes when that delta is positive.  The code computes
(new_size as i32) - (old_size as i32): at the wire-expressible (unvalidated)
value new = 2^32 - 1 with old = 65535 the program's delta is -65536, so the
stream window becomes -1 instead of growing by 4294901760, and no flush is
emitted although new - old > 0. -/
theorem C4_counterexample_wrapping_delta :
    process_settings_global c4_state ⟨false, [HttpSetting.InitialWindowSize 4294967295]⟩ =
      (c4_state_after, [SideEffect.SendFrame (Frame.Settings true [])]) ∧
    (-1 : Int) ≠ 65535 + ((4294967295 : Int) - 65535) ∧
    SideEffect.TryFlushStream none ∉ [SideEffect.SendFrame (Frame.Settings true [])] :=
  ⟨rfl, by decide, by decide⟩

/-- C4 amended: processing a non-ACK SETTINGS frame carrying
INITIAL_WINDOW_SIZE = new adds the i32 delta (new as i32) - (old as i32) to
every live stream's out_window_size with wrapping i32 arithmetic — equal to
the exact signed delta new - old whenever both settings and the resulting
windows stay within i32 range — records the new value in peer_settings,
enqueues a SETTINGS ACK after the deltas are applied, and appends a
connection-wide flush exactly when that i32 delta was positive and at least
one stream exists.  The hypothesis states the program invariant that stream
windows hold i32 values. -/
theorem C4_amended_settings_initial_window_delta (st : LoopInnerCommon) (new_size : Nat)
    (hw : ∀ p ∈ st.streams,
      -(2 ^ 31) ≤ p.2.out_window_size.val ∧ p.2.out_window_size.val < 2 ^ 31) :
    process_settings_global st ⟨false, [HttpSetting.InitialWindowSize new_size]⟩ =
      ({ st with
          conn := { st.conn with peer_initial_window_size := new_size }
          streams := (st.streams.map (fun p => (p.1,
            { p.2 with out_window_size := ⟨wrap_i32 (p.2.out_window_size.val +
              wrap_i32 (i32_of_usize new_size -
                i32_of_usize st.conn.peer_initial_window_size))⟩ }))) },
        SideEffect.SendFrame (Frame.Settings true []) ::
          (if wrap_i32 (i32_of_usize new_size -
                i32_of_usize st.conn.peer_initial_window_size) > 0 ∧ st.streams ≠ [] then
            [SideEffect.TryFlushStream none] else [])) := by
  by_cases hd : wrap_i32 (i32_of_usize new_size -
      i32_of_usize st.conn.peer_initial_window_size) = 0
  · have hlt : ¬(wrap_i32 (i32_of_usize new_size -
        i32_of_usize st.conn.peer_initial_window_size) > 0 ∧ st.streams ≠ []) := by
      rintro ⟨h1, h2⟩
      rw [hd] at h1
      exact lt_irrefl 0 h1
    simp [process_settings_global, apply_settings_loop, ack_settings_effects, hd, hlt]
    exact (map_wrap_window_id st.streams hw).symm
  · by_cases he : st.streams = []
    · have hlt : ¬(wrap_i32 (i32_of_usize new_size -
          i32_of_usize st.conn.peer_initial_window_size) > 0 ∧ st.streams ≠ []) := by
        rintro ⟨h1, h2⟩
        exact h2 he
      simp [process_settings_global, apply_settings_loop, ack_settings_effects, hd, he, hlt]
    · by_cases hp : wrap_i32 (i32_of_usize new_size -
          i32_of_usize st.conn.peer_initial_window_size) > 0
      · simp [process_settings_global, apply_settings_loop, ack_settings_effects, hd, he, hp]
      · simp [process_settings_global, apply_settings_loop, ack_settings_effects, hd, he, hp]

/-- Witness for C4 amended: the concrete c4_state (one stream, i32 windows)
under SETTINGS INITIAL_WINDOW_SIZE = 65600 exercises the positive-delta branch. -/
theorem C4_amended_witness :
    process_settings_global c4_state ⟨false, [HttpSetting.InitialWindowSize 65600]⟩ =
      ({ c4_state with
          conn := { c4_state.conn with peer_initial_window_size := 65600 }
          streams := (c4_state.streams.map (fun p => (p.1,
            { p.2 with out_window_size := ⟨wrap_i32 (p.2.out_window_size.val +
              wrap_i32 (i32_of_usize 65600 -
                i32_of_usize c4_state.conn.peer_initial_window_size))⟩ }))) },
        SideEffect.SendFrame (Frame.Settings true []) ::
          (if wrap_i32 (i32_of_usize 65600 -
                i32_of_usize c4_state.conn.peer_initial_window_size) > 0 ∧
              c4_state.streams ≠ [] then
            [SideEffect.TryFlushStream none] else [])) :=
  C4_amended_settings_initial_window_delta c4_state 65600 (by decide)

theorem write_data_frames_ne_nil (stream_id : Nat) (data : List Nat) (e : EndStream)
    (h : data ≠ []) : write_data_frames stream_id data e ≠ [] := by
  rw [write_data_frames]
  simp [h]

theorem write_data_frames_flatten (stream_id : Nat) (data : List Nat) (e : EndStream) :
    ((write_data_frames stream_id data e).map frame_payload).flatten = data := by
  induction data, e using write_data_frames.induct stream_id with
  | case1 e => simp [write_data_frames]
  | case2 data e hne ih =>
    rw [write_data_frames, dif_neg hne]
    simp [frame_payload, ih]

theorem write_data_frames_mem (stream_id : Nat) (data : List Nat) (e : EndStream) :
    ∀ f ∈ write_data_frames stream_id data e,
      ∃ p b, f = Frame.Data stream_id p b ∧ p.length ≤ MAX_CHUNK_SIZE := by
  induction data, e using write_data_frames.induct stream_id with
  | case1 e => simp [write_data_frames]
  | case2 data e hne ih =>
    rw [write_data_frames, dif_neg hne]
    intro f hf
    rcases List.mem_cons.mp hf with hf | hf
    · exact ⟨_, _, hf, by simp [List.length_take]⟩
    · exact ih f hf

theorem write_data_frames_dropLast (stream_id : Nat) (data : List Nat) (e : EndStream) :
    ∀ f ∈ (write_data_frames stream_id data e).dropLast,
      frame_end_stream f = false ∧ (frame_payload f).length = MAX_CHUNK_SIZE := by
  induction data, e using write_data_frames.induct stream_id with
  | case1 e => simp [write_data_frames]
  | case2 data e hne ih =>
    rw [write_data_frames, dif_neg hne]
    by_cases hdrop : data.drop MAX_CHUNK_SIZE = []
    · rw [hdrop, write_data_frames]
      simp
    · have hlen : MAX_CHUNK_SIZE < data.length := by
        rcases Nat.lt_or_ge MAX_CHUNK_SIZE data.length with h | h
        · exact h
        · exact absurd (List.drop_eq_nil_iff.mpr h) hdrop
      have hr := write_data_frames_ne_nil stream_id (data.drop MAX_CHUNK_SIZE) e hdrop
      intro f hf
      rw [List.dropLast_cons_of_ne_nil hr] at hf
      rcases List.mem_cons.mp hf with hf | hf
      · subst hf
        refine ⟨by simp [frame_end_stream, hdrop], ?_⟩
        simp [frame_payload, List.length_take]
        omega
      · exact ih f hf

theorem write_data_frames_getLast (stream_id : Nat) (data : List Nat) (e : EndStream) :
    ∀ f, (write_data_frames stream_id data e).getLast? = some f →
      frame_end_stream f = decide (e = EndStream.Yes) := by
  induction data, e using write_data_frames.induct stream_id with
  | case1 e => simp [write_data_frames]
  | case2 data e hne ih =>
    rw [write_data_frames, dif_neg hne]
    by_cases hdrop : data.drop MAX_CHUNK_SIZE = []
    · rw [hdrop, write_data_frames]
      intro f hf
      simp at hf
      subst hf
      simp [frame_end_stream]
    · have hr := write_data_frames_ne_nil stream_id (data.drop MAX_CHUNK_SIZE) e hdrop
      obtain ⟨b, l, hbl⟩ := List.exists_cons_of_ne_nil hr
      intro f hf
      rw [hbl, List.getLast?_cons_cons, ← hbl] at hf
      exact ih f hf

/-- C2: every Data(buf, end_stream) command given to write_part serializes as
the claim says: an empty buffer with end_stream = Yes yields exactly one empty
DATA frame with END_STREAM; otherwise the buffer is fragmented into DATA
frames of at most 8192 bytes whose payloads concatenate back to the buffer,
every frame except the last carries no END_STREAM and exactly 8192 bytes, and
the final frame carries END_STREAM exactly when the command had Yes. -/
theorem C2_write_part_data_fragmentation (stream_id : Nat) (data : List Nat) (e : EndStream) :
    (data = [] ∧ e = EndStream.Yes →
      write_part stream_id (HttpStreamCommand.Data data e) = [Frame.Data stream_id [] true]) ∧
    (¬(data = [] ∧ e = EndStream.Yes) →
      ((write_part stream_id (HttpStreamCommand.Data data e)).map frame_payload).flatten =
          data ∧
      (∀ f ∈ write_part stream_id (HttpStreamCommand.Data data e),
        ∃ p b, f = Frame.Data stream_id p b ∧ p.length ≤ MAX_CHUNK_SIZE) ∧
      (∀ f ∈ (write_part stream_id (HttpStreamCommand.Data data e)).dropLast,
        frame_end_stream f = false ∧ (frame_payload f).length = MAX_CHUNK_SIZE) ∧
      (∀ f, (write_part stream_id (HttpStreamCommand.Data data e)).getLast? = some f →
        frame_end_stream f = decide (e = EndStream.Yes))) := by
  constructor
  · rintro ⟨hdata, he⟩
    subst hdata
    subst he
    rfl
  · intro hn
    have hw : write_part stream_id (HttpStreamCommand.Data data e) =
        write_data_frames stream_id data e := by
      rw [write_part, if_neg]
      intro hcon
      exact hn ⟨List.length_eq_zero.mp hcon.2, hcon.1⟩
    rw [hw]
    exact ⟨write_data_frames_flatten stream_id data e,
      write_data_frames_mem stream_id data e,
      write_data_frames_dropLast stream_id data e,
      write_data_frames_getLast stream_id data e⟩

/-- Witness for C2: the empty-with-END_STREAM case and a concrete three-byte
fragmentation both follow from the theorem at concrete inputs. -/
theorem C2_witness :
    (write_part 1 (HttpStreamCommand.Data [] EndStream.Yes) = [Frame.Data 1 [] true]) ∧
    (((write_part 1 (HttpStreamCommand.Data [1, 2, 3] EndStream.Yes)).map
        frame_payload).flatten = [1, 2, 3] ∧
      (∀ f ∈ write_part 1 (HttpStreamCommand.Data [1, 2, 3] EndStream.Yes),
        ∃ p b, f = Frame.Data 1 p b ∧ p.length ≤ MAX_CHUNK_SIZE) ∧
      (∀ f ∈ (write_part 1 (HttpStreamCommand.Data [1, 2, 3] EndStream.Yes)).dropLast,
        frame_end_stream f = false ∧ (frame_payload f).length = MAX_CHUNK_SIZE) ∧
      (∀ f, (write_part 1 (HttpStreamCommand.Data [1, 2, 3] EndStream.Yes)).getLast? =
          some f → frame_end_stream f = decide (EndStream.Yes = EndStream.Yes))) :=
  ⟨(C2_write_part_data_fragmentation 1 [] EndStream.Yes).1 (by decide),
   (C2_write_part_data_fragmentation 1 [1, 2, 3] EndStream.Yes).2 (by decide)⟩

theorem map_fst_update (l : List (Nat × HttpStreamCommon)) (stream_id : Nat)
    (v : HttpStreamCommon) :
    (update_stream l stream_id v).map Prod.fst = l.map Prod.fst := by
  induction l with
  | nil => rfl
  | cons p rest ih =>
    obtain ⟨k, w⟩ := p
    by_cases hk : k = stream_id <;> simp [update_stream, hk, ih]

theorem get_stream_eq_none_of_not_mem (l : List (Nat × HttpStreamCommon)) (stream_id : Nat)
    (h : stream_id ∉ l.map Prod.fst) : get_stream l stream_id = none := by
  induction l with
  | nil => rfl
  | cons p rest ih =>
    obtain ⟨k, w⟩ := p
    simp only [List.map_cons, List.mem_cons] at h
    push_neg at h
    rw [get_stream, if_neg (fun hk => h.1 hk.symm)]
    exact ih h.2

theorem get_remove_of_nodup (l : List (Nat × HttpStreamCommon)) (stream_id : Nat)
    (h : (l.map Prod.fst).Nodup) :
    get_stream (remove_stream l stream_id) stream_id = none := by
  induction l with
  | nil => rfl
  | cons p rest ih =>
    obtain ⟨k, w⟩ := p
    simp only [List.map_cons, List.nodup_cons] at h
    by_cases hk : k = stream_id
    · rw [remove_stream, if_pos hk]
      exact get_stream_eq_none_of_not_mem rest stream_id (hk ▸ h.1)
    · rw [remove_stream, if_neg hk, get_stream, if_neg hk]
      exact ih h.2

theorem close_remote_close_local_state (s : HttpStreamCommon) :
    (s.close_remote.close_local).state = StreamState.Closed := by
  cases hs : s.state <;>
    simp [HttpStreamCommon.close_remote, HttpStreamCommon.close_local, hs]

/-- C7: dispatching RST_STREAM for an existing stream delivers the error code
to the stream's rst handler, closes both half-directions (their composition is
always Closed), removes the stream from the table (assuming the HashMap's
unique keys), and afterwards pop_outg_for_stream can never emit anything for
that id (its outgoing queue was discarded with it). -/
theorem C7_rst_stream_closes_and_removes (st : LoopInnerCommon) (stream_id : Nat)
    (code : ErrorCode) (s : HttpStreamCommon)
    (hget : get_stream st.streams stream_id = some s)
    (hnodup : (st.streams.map Prod.fst).Nodup) :
    ∃ st3 : LoopInnerCommon,
      process_stream_frame st (HttpFrameStream.RstStream stream_id code) =
        Except.ok (st3,
          [SideEffect.RstCallback stream_id code, SideEffect.ClosedRemote stream_id]) ∧
      get_stream st3.streams stream_id = none ∧
      (s.close_remote.close_local).state = StreamState.Closed ∧
      st3.pop_outg_for_stream stream_id = Except.ok (none, st3) := by
  have h1 : process_rst_stream_frame st stream_id code =
      Except.ok (st, [SideEffect.RstCallback stream_id code]) := by
    simp [process_rst_stream_frame, hget]
  have hupd : get_stream (update_stream st.streams stream_id s.close_remote) stream_id =
      some s.close_remote := get_stream_update_self _ _ _ _ hget
  by_cases hcr : s.close_remote.state = StreamState.Closed
  · -- the remote close already takes the stream to Closed: it is swept there
    have h2 : conn_close_remote st stream_id =
        Except.ok
          ({ st with streams := (remove_stream
              (update_stream st.streams stream_id s.close_remote) stream_id) },
            [SideEffect.ClosedRemote stream_id]) := by
      simp [conn_close_remote, hget, LoopInnerCommon.remove_stream_if_closed, hupd, hcr]
    have hnone : get_stream
        (remove_stream (update_stream st.streams stream_id s.close_remote) stream_id)
        stream_id = none := by
      apply get_remove_of_nodup
      rw [map_fst_update]
      exact hnodup
    have h3 : conn_close_local
        ({ st with streams := (remove_stream
            (update_stream st.streams stream_id s.close_remote) stream_id) }) stream_id =
        Except.ok ({ st with streams := (remove_stream
            (update_stream st.streams stream_id s.close_remote) stream_id) }) := by
      simp [conn_close_local, hnone]
    refine ⟨{ st with streams := (remove_stream
        (update_stream st.streams stream_id s.close_remote) stream_id) },
      ?_, hnone, close_remote_close_local_state s, ?_⟩
    · simp only [process_stream_frame, HttpFrameStream.get_stream_id,
        HttpFrameStream.is_end_of_stream, h1, if_pos, h2, h3]
      rfl
    · simp [LoopInnerCommon.pop_outg_for_stream, hnone]
  · -- the remote close leaves HalfClosedRemote; the local close sweeps it
    have h2 : conn_close_remote st stream_id =
        Except.ok
          ({ st with streams := (update_stream st.streams stream_id s.close_remote) },
            [SideEffect.ClosedRemote stream_id]) := by
      simp [conn_close_remote, hget, LoopInnerCommon.remove_stream_if_closed, hupd, hcr]
    have hupd2 : get_stream
        (update_stream (update_stream st.streams stream_id s.close_remote) stream_id
          s.close_remote.close_local) stream_id = some s.close_remote.close_local :=
      get_stream_update_self _ _ _ _ hupd
    have hnone : get_stream
        (remove_stream
          (update_stream (update_stream st.streams stream_id s.close_remote) stream_id
            s.close_remote.close_local) stream_id) stream_id = none := by
      apply get_remove_of_nodup
      rw [map_fst_update, map_fst_update]
      exact hnodup
    have h3 : conn_close_local
        ({ st with streams := (update_stream st.streams stream_id s.close_remote) })
        stream_id =
        Except.ok ({ st with streams := (remove_stream
          (update_stream (update_stream st.streams stream_id s.close_remote) stream_id
            s.close_remote.close_local) stream_id) }) := by
      simp [conn_close_local, hupd, LoopInnerCommon.remove_stream_if_closed, hupd2,
        close_remote_close_local_state]
    refine ⟨{ st with streams := (remove_stream
        (update_stream (update_stream st.streams stream_id s.close_remote) stream_id
          s.close_remote.close_local) stream_id) },
      ?_, hnone, close_remote_close_local_state s, ?_⟩
    · simp only [process_stream_frame, HttpFrameStream.get_stream_id,
        HttpFrameStream.is_end_of_stream, h1, if_pos, h2, h3]
      rfl
    · simp [LoopInnerCommon.pop_outg_for_stream, hnone]

/-- Stream and connection used as the concrete C7 witness input. -/
def c7_stream : HttpStreamCommon :=
  { state := StreamState.Open
    out_window_size := ⟨65535⟩
    in_window_size := ⟨65535⟩
    outgoing := [HttpStreamPartContent.Data [1, 2, 3]]
    outgoing_end := none }

/-- Connection holding c7_stream as stream 1. -/
def c7_state : LoopInnerCommon :=
  { conn := { out_window_size := ⟨65535⟩, in_window_size := ⟨65535⟩,
              peer_initial_window_size := 65535 }
    streams := [(1, c7_stream)] }

/-- Witness for C7: a concrete open stream with queued data receives
RST_STREAM(Cancel) and is closed and removed, with nothing poppable after. -/
theorem C7_witness :
    ∃ st3 : LoopInnerCommon,
      process_stream_frame c7_state (HttpFrameStream.RstStream 1 ErrorCode.Cancel) =
        Except.ok (st3, [SideEffect.RstCallback 1 ErrorCode.Cancel,
          SideEffect.ClosedRemote 1]) ∧
      get_stream st3.streams 1 = none ∧
      (c7_stream.close_remote.close_local).state = StreamState.Closed ∧
      st3.pop_outg_for_stream 1 = Except.ok (none, st3) :=
  C7_rst_stream_closes_and_removes c7_state 1 ErrorCode.Cancel c7_stream (by rfl) (by decide)

/-- Invariant backing C8: a stream in HalfClosedLocal has a drained queue and a
set outgoing_end, so pop_outg can have nothing left to emit for it. -/
def StreamInv (s : HttpStreamCommon) : Prop :=
  s.state = StreamState.HalfClosedLocal → s.outgoing = [] ∧ s.outgoing_end ≠ none

theorem streamInv_new (w : Nat) : StreamInv (HttpStreamCommon.new w) := by
  intro hstate
  simp [HttpStreamCommon.new] at hstate

theorem close_remote_state_ne_hcl (s : HttpStreamCommon) :
    (s.close_remote).state ≠ StreamState.HalfClosedLocal := by
  cases hs : s.state <;> simp [HttpStreamCommon.close_remote, hs]

theorem pop_outg_preserves_inv (s : HttpStreamCommon) (conn : WindowSize)
    (hinv : StreamInv s) (r : Option HttpStreamCommand) (s1 : HttpStreamCommon)
    (c1 : WindowSize) (h : s.pop_outg conn = Except.ok (r, s1, c1)) : StreamInv s1 := by
  rw [HttpStreamCommon.pop_outg] at h
  cases hq : s.outgoing with
  | nil =>
    rw [hq] at h
    cases hend : s.outgoing_end with
    | none =>
      rw [hend] at h
      simp only [Except.ok.injEq, Prod.mk.injEq] at h
      obtain ⟨-, hs1, -⟩ := h
      exact hs1 ▸ hinv
    | some ec =>
      rw [hend] at h
      by_cases hcl : s.state.is_closed_local
      · simp only [hcl, if_true, Except.ok.injEq, Prod.mk.injEq] at h
        obtain ⟨-, hs1, -⟩ := h
        exact hs1 ▸ hinv
      · simp only [hcl, if_false, Bool.false_eq_true, Except.ok.injEq,
          Prod.mk.injEq] at h
        obtain ⟨-, hs1, -⟩ := h
        refine hs1 ▸ (fun _ => ⟨?_, ?_⟩)
        · show (s.close_local).outgoing = []
          simpa [HttpStreamCommon.close_local] using hq
        · show (s.close_local).outgoing_end ≠ none
          simp [HttpStreamCommon.close_local, hend]
  | cons front rest =>
    rw [hq] at h
    have hsne : s.state ≠ StreamState.HalfClosedLocal := by
      intro hs
      have hnil := (hinv hs).1
      rw [hq] at hnil
      exact List.noConfusion hnil
    cases front with
    | Headers hb =>
      dsimp only at h
      simp only [decide_eq_true_eq] at h
      by_cases hlast : s.outgoing_end = some ErrorCode.NoError ∧
          rest = ([] : List HttpStreamPartContent)
      · rw [if_pos hlast] at h
        simp only [Except.ok.injEq, Prod.mk.injEq] at h
        obtain ⟨-, hs1, -⟩ := h
        refine hs1 ▸ (fun _ => ⟨?_, ?_⟩)
        · show (HttpStreamCommon.close_local _).outgoing = []
          simp [HttpStreamCommon.close_local, hlast.2]
        · show (HttpStreamCommon.close_local _).outgoing_end ≠ none
          simp [HttpStreamCommon.close_local, hlast.1]
      · rw [if_neg hlast] at h
        simp only [Except.ok.injEq, Prod.mk.injEq] at h
        obtain ⟨-, hs1, -⟩ := h
        refine hs1 ▸ (fun hs => absurd hs hsne)
    | Data data0 =>
      dsimp only at h
      by_cases hw : s.out_window_size.size ≤ 0
      · rw [if_pos hw] at h
        simp only [Except.ok.injEq, Prod.mk.injEq] at h
        obtain ⟨-, hs1, -⟩ := h
        exact hs1 ▸ hinv
      · rw [if_neg hw] at h
        by_cases htr : data0.length >
            usize_of_i32 (min s.out_window_size.size conn.size)
        · rw [if_pos htr] at h
          dsimp only at h
          cases hd1 : s.out_window_size.try_decrease
              (i32_of_usize (data0.take
                (usize_of_i32 (min s.out_window_size.size conn.size))).length) with
          | none => rw [hd1] at h; exact absurd h (by simp)
          | some w =>
            rw [hd1] at h
            cases hd2 : conn.try_decrease
                (i32_of_usize (data0.take
                  (usize_of_i32 (min s.out_window_size.size conn.size))).length) with
            | none => rw [hd2] at h; exact absurd h (by simp)
            | some cw =>
              rw [hd2] at h
              dsimp only at h
              simp only [decide_eq_true_eq] at h
              rw [if_neg (by simp :
                ¬(s.outgoing_end = some ErrorCode.NoError ∧
                  HttpStreamPartContent.Data (data0.drop
                    (usize_of_i32 (min s.out_window_size.size conn.size))) :: rest =
                    ([] : List HttpStreamPartContent)))] at h
              simp only [Except.ok.injEq, Prod.mk.injEq] at h
              obtain ⟨-, hs1, -⟩ := h
              refine hs1 ▸ (fun hs => absurd hs hsne)
        · rw [if_neg htr] at h
          dsimp only at h
          cases hd1 : s.out_window_size.try_decrease (i32_of_usize data0.length) with
          | none => rw [hd1] at h; exact absurd h (by simp)
          | some w =>
            rw [hd1] at h
            cases hd2 : conn.try_decrease (i32_of_usize data0.length) with
            | none => rw [hd2] at h; exact absurd h (by simp)
            | some cw =>
              rw [hd2] at h
              dsimp only at h
              simp only [decide_eq_true_eq] at h
              by_cases hlast : s.outgoing_end = some ErrorCode.NoError ∧
                  rest = ([] : List HttpStreamPartContent)
              · rw [if_pos hlast] at h
                simp only [Except.ok.injEq, Prod.mk.injEq] at h
                obtain ⟨-, hs1, -⟩ := h
                refine hs1 ▸ (fun _ => ⟨?_, ?_⟩)
                · show (HttpStreamCommon.close_local _).outgoing = []
                  simp [HttpStreamCommon.close_local, hlast.2]
                · show (HttpStreamCommon.close_local _).outgoing_end ≠ none
                  simp [HttpStreamCommon.close_local, hlast.1]
              · rw [if_neg hlast] at h
                simp only [Except.ok.injEq, Prod.mk.injEq] at h
                obtain ⟨-, hs1, -⟩ := h
                refine hs1 ▸ (fun hs => absurd hs hsne)

theorem stream_step_preserves_inv (s : HttpStreamCommon) (op : StreamOp)
    (s1 : HttpStreamCommon) (hinv : StreamInv s) (h : stream_step s op = some s1) :
    StreamInv s1 := by
  cases op with
  | enqueue part =>
    rw [stream_step] at h
    cases hend : s.outgoing_end with
    | none =>
      rw [hend] at h
      simp only [Option.some.injEq] at h
      refine h ▸ (fun hs => absurd hend (hinv hs).2)
    | some ec => rw [hend] at h; exact absurd h (by simp)
  | set_end code =>
    rw [stream_step] at h
    cases hend : s.outgoing_end with
    | none =>
      rw [hend] at h
      simp only [Option.some.injEq] at h
      refine h ▸ (fun hs => absurd hend (hinv hs).2)
    | some ec => rw [hend] at h; exact absurd h (by simp)
  | pop conn =>
    rw [stream_step] at h
    cases hp : s.pop_outg conn with
    | error e => rw [hp] at h; exact absurd h (by simp)
    | ok t =>
      obtain ⟨r, s2, c2⟩ := t
      rw [hp] at h
      simp only [Option.some.injEq] at h
      exact h ▸ pop_outg_preserves_inv s conn hinv r s2 c2 hp
  | close_remote_op =>
    rw [stream_step] at h
    simp only [Option.some.injEq] at h
    refine h ▸ (fun hs => absurd hs (close_remote_state_ne_hcl s))
  | rst_dispatch =>
    rw [stream_step] at h
    simp only [Option.some.injEq] at h
    refine h ▸ (fun hs => ?_)
    rw [close_remote_close_local_state s] at hs
    exact StreamState.noConfusion hs
  | add_out_window delta =>
    rw [stream_step] at h
    simp only [Option.some.injEq] at h
    refine h ▸ (fun hs => (hinv hs))
  | increase_out_window increment =>
    rw [stream_step] at h
    cases hi : s.out_window_size.try_increase increment with
    | none => rw [hi] at h; exact absurd h (by simp)
    | some w =>
      rw [hi] at h
      simp only [Option.some.injEq] at h
      refine h ▸ (fun hs => (hinv hs))

theorem stream_run_preserves_inv (ops : List StreamOp) :
    ∀ s t : HttpStreamCommon, StreamInv s → stream_run s ops = some t → StreamInv t := by
  induction ops with
  | nil =>
    intro s t hinv h
    rw [stream_run] at h
    simp only [Option.some.injEq] at h
    exact h ▸ hinv
  | cons op ops ih =>
    intro s t hinv h
    rw [stream_run] at h
    cases hstep : stream_step s op with
    | none => rw [hstep] at h; exact absurd h (by simp)
    | some s2 =>
      rw [hstep] at h
      exact ih s2 t (stream_step_preserves_inv s op s2 hinv hstep) h

/-- C8: in every reachable per-stream state, a stream in HalfClosedLocal
produces nothing at all from pop_outg (in particular never a Data or Headers
command) and is left unchanged: once close_local has run, the queue is already
drained and outgoing_end set, so no further DATA or HEADERS frames are ever
emitted for the stream. -/
theorem C8_half_closed_local_is_silent (s : HttpStreamCommon) (conn : WindowSize)
    (hreach : stream_reachable s) (hstate : s.state = StreamState.HalfClosedLocal) :
    s.pop_outg conn = Except.ok (none, s, conn) := by
  obtain ⟨w, ops, hrun⟩ := hreach
  have hinv := stream_run_preserves_inv ops _ s (streamInv_new w) hrun
  obtain ⟨hq, hend⟩ := hinv hstate
  have hcl : s.state.is_closed_local = true := by
    rw [hstate]
    rfl
  rw [HttpStreamCommon.pop_outg]
  cases he : s.outgoing_end with
  | none => exact absurd he hend
  | some ec => simp [hq, he, hcl]

/-- Concrete HalfClosedLocal stream reached by set_end NoError then a pop. -/
def c8_stream : HttpStreamCommon :=
  { state := StreamState.HalfClosedLocal
    out_window_size := ⟨1⟩
    in_window_size := ⟨65535⟩
    outgoing := []
    outgoing_end := some ErrorCode.NoError }

/-- Witness for C8: c8_stream is reachable, is HalfClosedLocal, and pop_outg
emits nothing for it. -/
theorem C8_witness :
    stream_reachable c8_stream ∧ c8_stream.state = StreamState.HalfClosedLocal ∧
    c8_stream.pop_outg ⟨5⟩ = Except.ok (none, c8_stream, ⟨5⟩) :=
  ⟨⟨1, [StreamOp.set_end ErrorCode.NoError, StreamOp.pop ⟨0⟩], by rfl⟩, rfl,
   C8_half_closed_local_is_silent c8_stream ⟨5⟩
     ⟨1, [StreamOp.set_end ErrorCode.NoError, StreamOp.pop ⟨0⟩], by rfl⟩ rfl⟩

end Http2
